import Mathlib

/-!
Shallow embedding of the message-routing and execution core of
`discord-bot-cli` (Python), together with theorems settling the frozen
claims about its specification.

Source files embedded:
- `discord_bot_cli/io_handlers.py` (FileHandler, SocketHandler)
- `discord_bot_cli/service.py`     (ServiceHandler)
- `discord_bot_cli/bot.py`         (DiscordBot message dispatch)
- `discord_bot_cli/config.py`      (configuration records)

Conventions: bytes are `Nat` values; Python strings are Lean `String`;
Python `Optional[int]` is `Option Nat`; Python dictionaries keyed by
strings are association lists in insertion order (Python dicts preserve
insertion order). External I/O (the Discord client, the filesystem, the
subprocess runner) is made explicit: each embedded operation takes the
externally observed data as arguments and returns the externally visible
effects (sends performed, spawn requests issued, file contents after the
call) as values.
-/

namespace DiscordBotCli

/-- A single-quote character as a string, used to build the exact reply
strings the Python source produces with f-strings. -/
def sq : String := String.singleton (Char.ofNat 39)

/-- An inbound chat message as seen by the handlers
(`message.id`, `message.author`, `message.channel.id`, `message.guild`,
`message.content`). -/
structure Message where
  id : Nat
  author : String
  channelId : Nat
  guildId : Option Nat
  content : String
  deriving Repr, DecidableEq

/-! ### SocketHandler framing (`io_handlers.py`, lines 236-272 and 313-340)

`_handle_client` reads a 4-byte big-endian length, then that many payload
bytes; `send_socket_message` and the reply path write
`len(data).to_bytes(4, 'big') + data`. A byte stream is a `List Nat`. -/

/-- `n.to_bytes(4, 'big')` for `n < 2^32`: the four big-endian bytes. -/
def toBytesBE4 (n : Nat) : List Nat :=
  [n / 2 ^ 24 % 256, n / 2 ^ 16 % 256, n / 2 ^ 8 % 256, n % 256]

/-- `int.from_bytes(bs, 'big')` on a byte list of any length. -/
def fromBytesBE (bs : List Nat) : Nat :=
  bs.foldl (fun acc b => acc * 256 + b) 0

/-- Frame encoding, from `send_socket_message` / the reply path of
`_handle_client`: `len(data).to_bytes(4, 'big') + data`. Python's
`to_bytes(4, 'big')` raises `OverflowError` when the length needs more
than four bytes, so encoding is partial. -/
def encodeFrame (payload : List Nat) : Option (List Nat) :=
  if payload.length < 2 ^ 32 then some (toBytesBE4 payload.length ++ payload) else none

/-- One iteration of the read side of `_handle_client`:
`length_data = await reader.read(4); if not length_data: break;
message_length = int.from_bytes(length_data, 'big');
message_data = await reader.read(message_length);
if len(message_data) != message_length: break`.
On the complete finite stream, `read(n)` returns the next `min n |rest|`
bytes. Returns the decoded payload and the remaining stream, or `none`
when the loop breaks without yielding a frame. -/
def decodeFrame (stream : List Nat) : Option (List Nat × List Nat) :=
  if stream = [] then none
  else
    let lengthData := stream.take 4
    let rest := stream.drop 4
    let n := fromBytesBE lengthData
    let msg := rest.take n
    if msg.length ≠ n then none
    else some (msg, rest.drop n)

/-- Termination measure for the client loop: a decoded frame consumes at
least one byte of the stream (a proof-valued definition used by
`handleClientLoop`). -/
def decodeFrame_rest_lt (s p r : List Nat)
    (h : decodeFrame s = some (p, r)) : r.length < s.length := by
  rw [decodeFrame] at h
  by_cases hs : s = []
  · simp [hs] at h
  · simp only [hs, if_false] at h
    by_cases hc : ((s.drop 4).take (fromBytesBE (s.take 4))).length
        ≠ fromBytesBE (s.take 4)
    · simp [hc] at h
      obtain ⟨-, -, hr⟩ := h
      have hpos : 0 < s.length := List.length_pos.mpr hs
      have hl : r.length = s.length - (4 + fromBytesBE (s.take 4)) := by
        rw [← hr, List.length_drop]
      omega
    · simp only [hc, if_false, Option.some.injEq, Prod.mk.injEq] at h
      have hr : r = (s.drop 4).drop (fromBytesBE (s.take 4)) := h.2.symm
      have hpos : 0 < s.length := List.length_pos.mpr hs
      have hle : r.length ≤ (s.drop 4).length := by
        rw [hr]
        exact (List.length_drop _ _).symm ▸ Nat.sub_le _ _
      rw [List.length_drop] at hle
      omega

/-- The per-connection request/response loop of `_handle_client`
(`io_handlers.py` lines 241-265), at the framing level. `proc` stands for
`_process_socket_message` composed with UTF-8 decoding/encoding of the
payload bytes; the loop decodes one frame, writes back one encoded reply
frame, and continues with the remaining stream until a read breaks the
loop. An oversized reply (`to_bytes` overflow) raises and ends the
connection. -/
def handleClientLoop (proc : List Nat → List Nat) (stream : List Nat) :
    List (List Nat) :=
  match hd : decodeFrame stream with
  | none => []
  | some pr =>
    match encodeFrame (proc pr.1) with
    | none => []
    | some frame => frame :: handleClientLoop proc pr.2
termination_by stream.length
decreasing_by
  exact decodeFrame_rest_lt stream pr.1 pr.2 hd

/-! ### SocketHandler message processing (`io_handlers.py`, lines 274-311)

`_process_socket_message` parses the payload as JSON and returns a
`json.dumps` string. JSON values are modelled by `Json`; `json.loads` is
the Python standard library, so the parse outcome is an explicit
argument (`Except Unit Json`). -/

/-- A parsed JSON value (the result of `json.loads`). Objects keep field
order, as Python dicts do. -/
inductive Json
  | null
  | bool (b : Bool)
  | num (n : Int)
  | str (s : String)
  | arr (elems : List Json)
  | obj (fields : List (String × Json))

/-- `data.get(k)` on a parsed JSON object: first field with the key. -/
def jsonGet (fields : List (String × Json)) (k : String) : Option Json :=
  (fields.find? (fun p => p.1 = k)).map Prod.snd

/-- Join strings with a separator (used by the renderings below). -/
def joinSep (sep : String) : List String → String
  | [] => ""
  | [x] => x
  | x :: xs => x ++ sep ++ joinSep sep xs

mutual

/-- Python `repr` of a parsed JSON value (used by `str` on containers). -/
def pyRepr : Json → String
  | .null => "None"
  | .bool true => "True"
  | .bool false => "False"
  | .num n => toString n
  | .str s => sq ++ s ++ sq
  | .arr xs => "[" ++ joinSep ", " (pyReprList xs) ++ "]"
  | .obj fs => "\x7b" ++ joinSep ", " (pyReprFields fs) ++ "\x7d"

/-- `repr` of each element of a parsed JSON array. -/
def pyReprList : List Json → List String
  | [] => []
  | x :: xs => pyRepr x :: pyReprList xs

/-- `repr` of each `key: value` entry of a parsed JSON object. -/
def pyReprFields : List (String × Json) → List String
  | [] => []
  | (k, v) :: fs => (sq ++ k ++ sq ++ ": " ++ pyRepr v) :: pyReprFields fs

end

/-- Python `str` of a parsed JSON value, as an f-string renders it. -/
def pyStr (j : Json) : String :=
  match j with
  | .str s => s
  | other => pyRepr other

/-- Python `str` of `data.get('command')`, which may be `None`. -/
def pyStrOpt : Option Json → String
  | none => "None"
  | some j => pyStr j

/-- The Python type name of a parsed JSON value, as it appears in the
`AttributeError` raised by `data.get` when `data` is not a dict. -/
def pyTypeName : Json → String
  | .null => "NoneType"
  | .bool _ => "bool"
  | .num _ => "int"
  | .str _ => "str"
  | .arr _ => "list"
  | .obj _ => "dict"

/-- `json.dumps` escaping of one character (backslash, quote, and the
ASCII control characters that can occur here). -/
def jsonEscapeChars : List Char → List Char
  | [] => []
  | c :: cs =>
    (if c = Char.ofNat 92 then [Char.ofNat 92, Char.ofNat 92]
     else if c = Char.ofNat 34 then [Char.ofNat 92, Char.ofNat 34]
     else if c = Char.ofNat 10 then [Char.ofNat 92, 'n']
     else if c = Char.ofNat 13 then [Char.ofNat 92, 'r']
     else if c = Char.ofNat 9 then [Char.ofNat 92, 't']
     else [c]) ++ jsonEscapeChars cs

/-- `json.dumps` string escaping. -/
def jsonEscape (s : String) : String := ⟨jsonEscapeChars s.data⟩

mutual

/-- `json.dumps` with its default separators. -/
def dumpJson : Json → String
  | .null => "null"
  | .bool true => "true"
  | .bool false => "false"
  | .num n => toString n
  | .str s => "\"" ++ jsonEscape s ++ "\""
  | .arr xs => "[" ++ joinSep ", " (dumpJsonList xs) ++ "]"
  | .obj fs => "\x7b" ++ joinSep ", " (dumpJsonFields fs) ++ "\x7d"

/-- `json.dumps` of each element of an array. -/
def dumpJsonList : List Json → List String
  | [] => []
  | x :: xs => dumpJson x :: dumpJsonList xs

/-- `json.dumps` of each `"key": value` entry of an object. -/
def dumpJsonFields : List (String × Json) → List String
  | [] => []
  | (k, v) :: fs => ("\"" ++ jsonEscape k ++ "\": " ++ dumpJson v) :: dumpJsonFields fs

end

/-- A message fetched from the channel by `bot.get_channel_messages`
(an external Discord call), with `str(msg.author)` and
`msg.created_at.isoformat()` already rendered. -/
structure ChannelMsg where
  id : Int
  content : String
  author : String
  timestamp : String
  deriving Repr, DecidableEq

/-- `SocketHandler._process_socket_message` (`io_handlers.py` lines
274-311). External inputs are explicit: `parsed` is the `json.loads`
outcome, `connected`/`running` the bot state read in the `status`
branch, `sendResult` the value `bot.send_message` returns in the `send`
branch, and `fetch` the external `bot.get_channel_messages` call keyed
by the `limit` value passed to it. Returns the reply string, exactly as
`json.dumps` renders it. A non-dict JSON payload raises
`AttributeError` at `data.get`, caught by the generic `except` clause. -/
def process_socket_message (connected running sendResult : Bool)
    (fetch : Json → List ChannelMsg) (parsed : Except Unit Json) : String :=
  match parsed with
  | .error _ => dumpJson (.obj [("error", .str "Invalid JSON message")])
  | .ok (.obj fields) =>
    match jsonGet fields "command" with
    | some (.str s) =>
      if s = "send" then
        let content := (jsonGet fields "content").getD (.str "")
        dumpJson (.obj [("success", .bool sendResult), ("message", content)])
      else if s = "status" then
        dumpJson (.obj [("connected", .bool connected), ("running", .bool running)])
      else if s = "get_messages" then
        let limit := (jsonGet fields "limit").getD (.num 10)
        dumpJson (.obj [("messages", .arr ((fetch limit).map (fun m =>
          .obj [("id", .num m.id), ("content", .str m.content),
            ("author", .str m.author), ("timestamp", .str m.timestamp)])))])
      else
        dumpJson (.obj [("error", .str ("Unknown command: " ++ s))])
    | command =>
      dumpJson (.obj [("error", .str ("Unknown command: " ++ pyStrOpt command))])
  | .ok other =>
    dumpJson (.obj [("error",
      .str (sq ++ pyTypeName other ++ sq ++ " object has no attribute " ++ sq ++ "get" ++ sq))])

/-! ### ServiceHandler script discovery (`service.py`, lines 44-55)

`_load_scripts` iterates `script_dir.glob("*")` and assigns
`self.script_cache[script_file.name] = str(script_file)` for each regular
file with an execute bit. The cache is a Python dict mutated in place; it
is modelled as an insertion-ordered association list, with assignment
overwriting an existing key in place or appending a new one. -/

/-- One directory entry seen by `script_dir.glob("*")`: its name, whether
it is a regular file, and its `st_mode` bits. -/
structure DirEntry where
  name : String
  isFile : Bool
  mode : Nat
  deriving Repr, DecidableEq

/-- Python dict assignment `d[k] = v` on an insertion-ordered
association list: overwrite in place if the key exists, else append. -/
def dictInsert (cache : List (String × String)) (name path : String) :
    List (String × String) :=
  if cache.any (fun p => p.1 = name) then
    cache.map (fun p => if p.1 = name then (name, path) else p)
  else cache ++ [(name, path)]

/-- `ServiceHandler._load_scripts` (`service.py` lines 44-55): when the
directory is missing it is created and the cache is left untouched;
otherwise each executable regular file is assigned into the existing
`script_cache` dict. Nothing is ever removed from the cache. -/
def load_scripts (dirExists : Bool) (entries : List DirEntry)
    (scriptDir : String) (cache : List (String × String)) :
    List (String × String) :=
  if dirExists = false then cache
  else entries.foldl (fun c e =>
    if e.isFile && (e.mode &&& 0o111 != 0) then
      dictInsert c e.name (scriptDir ++ "/" ++ e.name)
    else c) cache

/-! ### Python string primitives

`str.strip()`, `str.split()`, `str.startswith` and slicing are modelled
character-wise over `String.data`, so that they evaluate on concrete
inputs. -/

/-- The ASCII whitespace Python's `str.strip()`/`str.split()` treat as
separators. -/
def pyIsSpace (c : Char) : Bool :=
  c == ' ' || c == '\t' || c == '\n' || c == '\x0d' || c == '\x0b' || c == '\x0c'

/-- Python `str.strip()`: whitespace removed from both ends. -/
def pyStrip (s : String) : String :=
  ⟨((s.data.dropWhile pyIsSpace).reverse.dropWhile pyIsSpace).reverse⟩

/-- Whether the first list is an initial segment of the second. -/
def charsPfx : List Char → List Char → Bool
  | [], _ => true
  | _ :: _, [] => false
  | a :: as, b :: bs => a == b && charsPfx as bs

/-- Python `s.startswith(p)`. -/
def pyStartsWith (s p : String) : Bool := charsPfx p.data s.data

/-- Python `s[n:]`: drop the first `n` characters. -/
def pyDropChars (s : String) (n : Nat) : String := ⟨s.data.drop n⟩

/-- Worker for `str.split()`: `cur` holds the current token reversed. -/
def splitWsGo : List Char → List Char → List (List Char)
  | cur, [] => if cur.isEmpty then [] else [cur.reverse]
  | cur, c :: cs =>
    if pyIsSpace c then
      if cur.isEmpty then splitWsGo [] cs
      else cur.reverse :: splitWsGo [] cs
    else splitWsGo (c :: cur) cs

/-- Python `str.split()` with no separator: split on whitespace runs,
discarding empty tokens. -/
def pySplitWs (s : String) : List String :=
  (splitWsGo [] s.data).map (fun cs => String.mk cs)

/-! ### ServiceHandler command handling (`service.py`, lines 57-114) -/

/-- The parsing part of `ServiceHandler._handle_service_message`
(`service.py` lines 57-74): trim the message text, require the
configured prefix (`self.config.bot.prefix`, here `pfx`), drop ONE
character (`content[1:]`), trim, and split on whitespace; the first
token is the command, the rest are the arguments. `none` means the
consumer returns without delegating. -/
def parse_service_command (pfx : String) (rawContent : String) :
    Option (String × List String) :=
  let content := pyStrip rawContent
  if pyStartsWith content pfx = false then none
  else
    let commandLine := pyStrip (pyDropChars content 1)
    match pySplitWs commandLine with
    | [] => none
    | cmd :: args => some (cmd, args)

/-- How `_execute_command` resolves a command (which branch of
`service.py` lines 83-110 runs). -/
inductive CommandAction where
  | notAllowed (cmd : String)
  | runScript (cmd : String) (args : List String)
  | runSystem (cmd : String) (args : List String)
  | builtinHelp
  | builtinList
  | builtinStatus
  | builtinReload
  | unknown (cmd : String)
  deriving Repr, DecidableEq

/-- The fixed list of system diagnostic commands
(`service.py` line 96). -/
def systemCommands : List String :=
  ["ls", "ps", "df", "free", "uptime", "whoami", "pwd"]

/-- The resolution order of `ServiceHandler._execute_command`
(`service.py` lines 83-110): a non-empty allow-list rejects anything not
listed, then the script cache, then the system commands, then the
built-ins, else unknown. -/
def execute_command (allowed : List String) (cache : List (String × String))
    (cmd : String) (args : List String) : CommandAction :=
  if allowed ≠ [] ∧ cmd ∉ allowed then .notAllowed cmd
  else if cache.any (fun p => p.1 = cmd) then .runScript cmd args
  else if cmd ∈ systemCommands then .runSystem cmd args
  else if cmd = "help" then .builtinHelp
  else if cmd = "list" then .builtinList
  else if cmd = "status" then .builtinStatus
  else if cmd = "reload" then .builtinReload
  else .unknown cmd

/-- The reply `_execute_command` returns for a disallowed command
(`service.py` line 89): `f"Command '{command}' not allowed"`. -/
def notAllowedReply (cmd : String) : String :=
  "Command " ++ sq ++ cmd ++ sq ++ " not allowed"

/-! ### ServiceHandler subprocess execution (`service.py`, lines 116-191)

`asyncio.create_subprocess_exec` and `process.communicate()` are
external; the spawn arguments the code passes are captured as a
`SpawnRequest` value, and what the child did within the timeout window
is an explicit `ChildRun` argument. -/

/-- The arguments `asyncio.create_subprocess_exec` is called with:
program, argument list, the environment variables added on top of the
inherited `os.environ` (empty when the code passes no `env`), and the
`cwd` argument (`none` when the code passes no `cwd`). -/
structure SpawnRequest where
  program : String
  args : List String
  envOverlay : List (String × String)
  cwd : Option String
  deriving Repr, DecidableEq

/-- What the child process did within the timeout window: finished with
an exit code and captured output, or was still running when
`asyncio.wait_for` raised `TimeoutError`. -/
inductive ChildRun where
  | finished (exitCode : Int) (stdout stderr : String)
  | timedOut
  deriving Repr, DecidableEq

/-- The child's state when the executor returns. -/
inductive ChildState where
  | exited (code : Int)
  | killed
  | stillRunning
  deriving Repr, DecidableEq

/-- The environment overlay `_execute_script` builds (`service.py` lines
122-130): `env = os.environ.copy()` then `env.update({...})` with the
six injected variables. -/
def script_env (msg : Message) (args : List String) : List (String × String) :=
  [("DISCORD_MESSAGE_ID", toString msg.id),
   ("DISCORD_AUTHOR", msg.author),
   ("DISCORD_CHANNEL_ID", toString msg.channelId),
   ("DISCORD_GUILD_ID", (match msg.guildId with | some g => toString g | none => "")),
   ("DISCORD_MESSAGE_CONTENT", msg.content),
   ("DISCORD_ARGS", String.intercalate " " args)]

/-- The spawn call of `_execute_script` (`service.py` lines 133-140):
script path, args, the injected environment, and
`cwd=self.config.service.working_directory`. -/
def execute_script_spawn (scriptPath workingDir : String) (msg : Message)
    (args : List String) : SpawnRequest :=
  { program := scriptPath, args := args, envOverlay := script_env msg args,
    cwd := some workingDir }

/-- The spawn call of `_execute_system_command` (`service.py` lines
168-173): command and args only — no `env` and no `cwd` argument, so the
child inherits the parent environment and working directory. -/
def execute_system_command_spawn (cmd : String) (args : List String) :
    SpawnRequest :=
  { program := cmd, args := args, envOverlay := [], cwd := none }

/-- The wait/report part of `_execute_script` (`service.py` lines
142-159): on `TimeoutError` the handler calls `process.kill()` (line
149) and returns the timed-out string; on completion, exit code 0 yields
trimmed stdout (or the canned success string), otherwise the failure
string with trimmed stderr falling back to stdout. Returns the reply
and the child's state when the function returns. -/
def execute_script_result (scriptName : String) (maxTime : Nat)
    (run : ChildRun) : String × ChildState :=
  match run with
  | .timedOut =>
    ("Script " ++ sq ++ scriptName ++ sq ++ " timed out after "
      ++ toString maxTime ++ " seconds", .killed)
  | .finished code out err =>
    let stdoutText := pyStrip out
    let stderrText := pyStrip err
    if code = 0 then
      ((if stdoutText = "" then "Script executed successfully" else stdoutText),
       .exited code)
    else
      ("Script failed (exit code " ++ toString code ++ "):\n"
        ++ (if stderrText = "" then stdoutText else stderrText), .exited code)

/-- The wait/report part of `_execute_system_command` (`service.py`
lines 175-189): the `except asyncio.TimeoutError` handler (line 188)
returns the timed-out string WITHOUT calling `process.kill()`;
cancelling `communicate()` does not terminate the child, so the child is
still running when the function returns. Completion is handled like the
script path, with `Command` wording. -/
def execute_system_command_result (cmd : String) (maxTime : Nat)
    (run : ChildRun) : String × ChildState :=
  match run with
  | .timedOut =>
    ("Command " ++ sq ++ cmd ++ sq ++ " timed out after "
      ++ toString maxTime ++ " seconds", .stillRunning)
  | .finished code out err =>
    let stdoutText := pyStrip out
    let stderrText := pyStrip err
    if code = 0 then
      ((if stdoutText = "" then "Command executed successfully" else stdoutText),
       .exited code)
    else
      ("Command failed (exit code " ++ toString code ++ "):\n"
        ++ (if stderrText = "" then stdoutText else stderrText), .exited code)

/-! ### DiscordBot message dispatch (`bot.py`, lines 57-79)

`on_message` guards against the bot's own messages and, when a truthy
channel id is configured, against other channels; then it calls every
registered handler inside `try/except`, logging a handler's exception
and continuing with the next. A handler is modelled by a label and its
behavior on the message (normal return or a raised fault); the dispatch
returns the trace of invocations in the order they happen. -/

/-- What one registered handler does when invoked: return normally or
raise (the raise is caught and logged by `on_message`). -/
inductive HandlerOutcome where
  | ok
  | fault (err : String)
  deriving Repr, DecidableEq

/-- A registered message handler: a label and its behavior. -/
abbrev Handler := String × (Message → HandlerOutcome)

/-- The `for handler in self.message_handlers` loop (`bot.py` lines
69-76): each handler is invoked once, its exception (if any) is caught
and logged, and the loop continues; nothing propagates to the caller. -/
def dispatch_loop (handlers : List Handler) (msg : Message) :
    List (String × HandlerOutcome) :=
  match handlers with
  | [] => []
  | h :: rest => (h.1, h.2 msg) :: dispatch_loop rest msg

/-- `DiscordBot._setup_handlers.on_message` (`bot.py` lines 57-79):
drop the bot's own messages; when `self.config.bot.channel_id` is truthy
(a nonzero id) drop messages from other channels; otherwise run the
handler loop. Returns the invocation trace. -/
def on_message (botUser : String) (channelId : Option Nat)
    (handlers : List Handler) (msg : Message) :
    List (String × HandlerOutcome) :=
  if msg.author = botUser then []
  else
    match channelId with
    | some c => if c ≠ 0 ∧ msg.channelId ≠ c then [] else dispatch_loop handlers msg
    | none => dispatch_loop handlers msg

/-! ### FileHandler input mailbox (`io_handlers.py`, lines 147-171)

`_process_input_file` opens the input file read-only inside
`async with`, reads it, and leaves the block (closing the handle) before
the send; on a successful send it calls `await f.truncate(0)` on that
already-closed, read-only handle, which raises, and the outer `except`
logs the exception. -/

/-- The mode a file object was opened with. -/
inductive FileOpenMode where
  | readOnly
  | writable
  deriving Repr, DecidableEq

/-- A Python file object: whether it is still open, and its mode. -/
structure FileHandle where
  isOpen : Bool
  mode : FileOpenMode
  deriving Repr, DecidableEq

/-- `f.truncate(0)`: succeeds (cutting the file to empty) only on an
open, writable handle; a closed handle raises `ValueError` and a
read-only one raises `UnsupportedOperation`. -/
def handleTruncate (f : FileHandle) : Except String String :=
  if f.isOpen = false then .error "I/O operation on closed file"
  else if f.mode = FileOpenMode.readOnly then .error "File not open for writing"
  else .ok ""

/-- The externally visible outcome of one `_process_input_file` call:
the outbound sends performed, the mailbox content after the call, and
whether the `except` clause logged an error. -/
structure MailboxResult where
  sends : List String
  fileContent : String
  errorLogged : Bool
  deriving Repr, DecidableEq

/-- `FileHandler._process_input_file` (`io_handlers.py` lines 147-171).
`content` is what the mailbox file holds; `sendSucceeds` is what the
external `bot.send_message` returns. The `async with` block (lines
155-156) closes the read-only handle before line 158 runs, so the
`f.truncate(0)` on line 166 operates on a closed handle. -/
def process_input_file (fileExists : Bool) (content : String)
    (sendSucceeds : Bool) : MailboxResult :=
  if fileExists = false then { sends := [], fileContent := content, errorLogged := false }
  else
    let f : FileHandle := { isOpen := false, mode := FileOpenMode.readOnly }
    if pyStrip content = "" then { sends := [], fileContent := content, errorLogged := false }
    else if sendSucceeds then
      match handleTruncate f with
      | .ok newContent =>
        { sends := [pyStrip content], fileContent := newContent, errorLogged := false }
      | .error _ =>
        { sends := [pyStrip content], fileContent := content, errorLogged := true }
    else { sends := [pyStrip content], fileContent := content, errorLogged := true }

/-- Keys of the script cache, in insertion order. -/
def keysOf (cache : List (String × String)) : List String := cache.map Prod.fst

/-- The claim's reading of the command parser, for comparison with
`parse_service_command` (claim C6): strip exactly the configured prefix,
then tokenize the remainder by whitespace (the trim before splitting is
kept: whitespace tokenization discards surrounding whitespace either
way, and keeping it makes the two parsers comparable term by term). -/
def parse_service_command_spec (pfx : String) (rawContent : String) :
    Option (String × List String) :=
  let content := pyStrip rawContent
  if pyStartsWith content pfx = false then none
  else
    let commandLine := pyStrip (pyDropChars content pfx.length)
    match pySplitWs commandLine with
    | [] => none
    | cmd :: args => some (cmd, args)

/-! ## Helper lemmas -/

theorem fromBytesBE_toBytesBE4 (n : Nat) (h : n < 2 ^ 32) :
    fromBytesBE (toBytesBE4 n) = n := by
  simp only [fromBytesBE, toBytesBE4, List.foldl]
  omega

theorem decodeFrame_encoded (p rest : List Nat) (h : p.length < 2 ^ 32) :
    decodeFrame (toBytesBE4 p.length ++ p ++ rest) = some (p, rest) := by
  have hlen : (toBytesBE4 p.length).length = 4 := rfl
  have hne : toBytesBE4 p.length ++ p ++ rest ≠ [] := by
    simp [toBytesBE4]
  rw [decodeFrame]
  simp only [hne, if_false]
  rw [List.append_assoc, List.take_append_of_le_length (by omega),
    List.drop_append_of_le_length (by omega)]
  have h4 : (toBytesBE4 p.length).take 4 = toBytesBE4 p.length := by
    simp [toBytesBE4]
  have h4d : (toBytesBE4 p.length).drop 4 = [] := by
    simp [toBytesBE4]
  rw [h4, h4d, fromBytesBE_toBytesBE4 _ h]
  simp

theorem decodeFrame_truncated (p : List Nat) (m : Nat) (h : p.length < 2 ^ 32)
    (h4 : 4 ≤ m) (hm : m < 4 + p.length) :
    decodeFrame ((toBytesBE4 p.length ++ p).take m) = none := by
  have hlen : (toBytesBE4 p.length).length = 4 := rfl
  have htake : (toBytesBE4 p.length ++ p).take m
      = toBytesBE4 p.length ++ p.take (m - 4) := by
    rw [List.take_append_eq_append_take, hlen]
    congr 1
    exact List.take_of_length_le (by omega)
  rw [htake, decodeFrame]
  have hne : toBytesBE4 p.length ++ p.take (m - 4) ≠ [] := by
    simp [toBytesBE4]
  simp only [hne, if_false]
  rw [List.take_append_of_le_length (by omega),
    List.drop_append_of_le_length (by omega)]
  have h4t : (toBytesBE4 p.length).take 4 = toBytesBE4 p.length := by
    simp [toBytesBE4]
  have h4d : (toBytesBE4 p.length).drop 4 = [] := by
    simp [toBytesBE4]
  rw [h4t, h4d, fromBytesBE_toBytesBE4 _ h]
  simp only [List.nil_append]
  have hlt : (p.take (m - 4)).length < p.length := by
    rw [List.length_take]
    omega
  have : ((p.take (m - 4)).take p.length).length ≠ p.length := by
    rw [List.take_of_length_le (le_of_lt hlt)]
    omega
  simp [this]
  omega

theorem handleClientLoop_step (proc : List Nat → List Nat)
    (s p r f : List Nat) (h1 : decodeFrame s = some (p, r))
    (h2 : encodeFrame (proc p) = some f) :
    handleClientLoop proc s = f :: handleClientLoop proc r := by
  rw [handleClientLoop, h1]
  simp [h2]

theorem keysOf_dictInsert (cache : List (String × String)) (name path k : String) :
    k ∈ keysOf (dictInsert cache name path) ↔ k ∈ keysOf cache ∨ k = name := by
  unfold dictInsert
  by_cases h : cache.any (fun p => p.1 = name)
  · rw [if_pos h]
    have hname : name ∈ keysOf cache := by
      rw [List.any_eq_true] at h
      obtain ⟨p, hp, he⟩ := h
      simp only [decide_eq_true_eq] at he
      exact List.mem_map.mpr ⟨p, hp, he⟩
    have hkeys : keysOf (cache.map (fun p => if p.1 = name then (name, path) else p))
        = keysOf cache := by
      unfold keysOf
      rw [List.map_map]
      refine List.map_congr_left ?_
      intro p _
      by_cases hpn : p.1 = name
      · simp [hpn]
      · simp [hpn]
    rw [hkeys]
    constructor
    · exact Or.inl
    · rintro (hk | rfl)
      · exact hk
      · exact hname
  · rw [if_neg h]
    unfold keysOf
    rw [List.map_append]
    simp

theorem keysOf_load_scripts (entries : List DirEntry) (d : String)
    (cache : List (String × String)) (k : String) :
    k ∈ keysOf (load_scripts true entries d cache)
      ↔ k ∈ keysOf cache
        ∨ k ∈ (entries.filter
            (fun e => e.isFile && (e.mode &&& 0o111 != 0))).map DirEntry.name := by
  induction entries generalizing cache with
  | nil => simp [load_scripts]
  | cons e rest ih =>
    have hstep : load_scripts true (e :: rest) d cache
        = load_scripts true rest d
            (if e.isFile && (e.mode &&& 0o111 != 0) then
              dictInsert cache e.name (d ++ "/" ++ e.name) else cache) := by
      simp only [load_scripts, Bool.true_eq_false, if_false, List.foldl_cons]
    rw [hstep]
    by_cases hc : (e.isFile && (e.mode &&& 0o111 != 0)) = true
    · rw [if_pos hc, ih, keysOf_dictInsert]
      simp only [List.filter_cons, hc, if_true, List.map_cons, List.mem_cons]
      tauto
    · have hc' : (e.isFile && (e.mode &&& 0o111 != 0)) = false := by
        revert hc
        cases e.isFile && (e.mode &&& 0o111 != 0) <;> simp
      rw [if_neg hc, ih]
      simp only [List.filter_cons, hc', Bool.false_eq_true, if_false]

/-! ## Claim theorems -/

/-- C4: the claim says a reload rebuilds the name-to-descriptor mapping
wholesale (dropping entries for files no longer on disk) and swaps it in
atomically. The code instead assigns into the existing dict entry by
entry: starting from a cache holding only `gone` (a script no longer on
disk) and a directory holding executables `new1` and `new2`, (a) after
the reload the stale key `gone` is still present, and (b) the state
after the loop has processed only `new1` — observable by a concurrent
lookup, since the dict is mutated in place — differs from both the old
and the final mapping, i.e. it is a mix of old and new. -/
theorem C4_reload_counterexample :
    ("gone", "./scripts/gone") ∈ load_scripts true
        [⟨"new1", true, 0o755⟩, ⟨"new2", true, 0o755⟩] "./scripts"
        [("gone", "./scripts/gone")]
    ∧ load_scripts true [⟨"new1", true, 0o755⟩] "./scripts"
        [("gone", "./scripts/gone")]
      ≠ [("gone", "./scripts/gone")]
    ∧ load_scripts true [⟨"new1", true, 0o755⟩] "./scripts"
        [("gone", "./scripts/gone")]
      ≠ load_scripts true [⟨"new1", true, 0o755⟩, ⟨"new2", true, 0o755⟩]
          "./scripts" [("gone", "./scripts/gone")] := by
  refine ⟨?_, by decide, by decide⟩
  decide

/-- C4 (amended): each reload keeps the existing mapping and assigns
into it: afterward its keys are exactly the old keys together with the
names of the executable regular files currently in the script directory.
Entries for files no longer present are never removed, and because the
dict is updated in place (not swapped), a concurrent lookup can observe
intermediate mixes of old and new entries. -/
theorem C4_reload_incremental (entries : List DirEntry) (d : String)
    (cache : List (String × String)) (k : String) :
    k ∈ keysOf (load_scripts true entries d cache)
      ↔ k ∈ keysOf cache
        ∨ k ∈ (entries.filter
            (fun e => e.isFile && (e.mode &&& 0o111 != 0))).map DirEntry.name :=
  keysOf_load_scripts entries d cache k

/-- C1: the claim says that after a successful send of non-empty trimmed
mailbox content, exactly one outbound send occurs AND the input file is
truncated to empty. The code performs the one send, but `f.truncate(0)`
runs on the already-closed, read-only handle, raises, and is swallowed
by the outer `except`, so the mailbox keeps its content: with the file
holding `"hello"` and the send succeeding, the call sends `"hello"` once
but leaves `"hello"` in the file (and logs an error) instead of
truncating it to empty. -/
theorem C1_mailbox_not_truncated :
    process_input_file true "hello" true
      = { sends := ["hello"], fileContent := "hello", errorLogged := true }
    ∧ (process_input_file true "hello" true).fileContent ≠ "" := by
  constructor
  · rfl
  · decide

/-- C2: the claim says every timed-out execution, script or system
command alike, has its child forcibly killed and left not running. The
script path does kill (`process.kill()`, `service.py` line 149), but the
`except asyncio.TimeoutError` handler of `_execute_system_command`
(line 188) returns the timed-out text without any kill, leaving the
child running: for system command `ls` with the 30s timeout exceeded,
the executor returns the timed-out string yet the child is still
running. -/
theorem C2_system_timeout_child_left_running :
    execute_system_command_result "ls" 30 ChildRun.timedOut
      = ("Command " ++ sq ++ "ls" ++ sq ++ " timed out after 30 seconds",
         ChildState.stillRunning)
    ∧ ChildState.stillRunning ≠ ChildState.killed
    ∧ execute_script_result "greet" 30 ChildRun.timedOut
      = ("Script " ++ sq ++ "greet" ++ sq ++ " timed out after 30 seconds",
         ChildState.killed) :=
  ⟨rfl, by decide, rfl⟩

/-- C3: dispatch invokes every registered consumer exactly once, in
registration order, each on the dispatched message; a consumer's fault
is recorded in the trace (caught and logged) and stops neither the
following consumers nor the dispatch itself — the loop is total and
returns the full trace, never propagating a fault to the caller. -/
theorem C3_dispatch_all_handlers (handlers : List Handler) (msg : Message) :
    dispatch_loop handlers msg = handlers.map (fun h => (h.1, h.2 msg)) := by
  induction handlers with
  | nil => rfl
  | cons h rest ih => simp [dispatch_loop, ih]

/-- C5: with a non-empty allow-list, a command not in the list resolves
to the not-allowed rejection before the script cache, the system
command list, and the built-ins are even consulted, whatever the cache
contains and whatever the command matches. -/
theorem C5_allowlist_rejects (allowed : List String)
    (cache : List (String × String)) (cmd : String) (args : List String)
    (hne : allowed ≠ []) (hnotin : cmd ∉ allowed) :
    execute_command allowed cache cmd args = CommandAction.notAllowed cmd := by
  unfold execute_command
  rw [if_pos ⟨hne, hnotin⟩]

/-- C5 witness: the allow-list `["status"]` is non-empty and `ls` is not
in it, so `ls` is rejected even though it is both a cached script name
and a system diagnostic command. -/
theorem C5_allowlist_rejects_witness :
    (["status"] : List String) ≠ []
    ∧ "ls" ∉ (["status"] : List String)
    ∧ execute_command ["status"] [("ls", "./scripts/ls")] "ls" []
      = CommandAction.notAllowed "ls" :=
  ⟨by decide, by decide,
    C5_allowlist_rejects ["status"] [("ls", "./scripts/ls")] "ls" []
      (by decide) (by decide)⟩

/-- C7: encoding a payload yields the 4-byte big-endian length prefix
followed by exactly the payload, decoding that frame returns the payload
(with the rest of the stream untouched), and a stream that ends after
the full prefix but before all declared payload bytes decodes to no
frame at all. -/
theorem C7_frame_roundtrip (p rest : List Nat) (m : Nat)
    (h : p.length < 2 ^ 32) (h4 : 4 ≤ m) (hm : m < 4 + p.length) :
    encodeFrame p = some (toBytesBE4 p.length ++ p)
    ∧ decodeFrame (toBytesBE4 p.length ++ p ++ rest) = some (p, rest)
    ∧ decodeFrame ((toBytesBE4 p.length ++ p).take m) = none := by
  refine ⟨?_, decodeFrame_encoded p rest h, decodeFrame_truncated p m h h4 hm⟩
  unfold encodeFrame
  rw [if_pos h]

/-- C7 witness: the two-byte payload `[104, 105]` round-trips through a
frame, and cutting the frame to 5 bytes (full prefix, half the payload)
yields no frame. -/
theorem C7_frame_roundtrip_witness :
    ([104, 105] : List Nat).length < 2 ^ 32
    ∧ 4 ≤ 5 ∧ 5 < 4 + ([104, 105] : List Nat).length
    ∧ (encodeFrame [104, 105]
        = some (toBytesBE4 ([104, 105] : List Nat).length ++ [104, 105])
      ∧ decodeFrame (toBytesBE4 ([104, 105] : List Nat).length ++ [104, 105] ++ [])
        = some ([104, 105], [])
      ∧ decodeFrame ((toBytesBE4 ([104, 105] : List Nat).length ++ [104, 105]).take 5)
        = none) :=
  ⟨by decide, by decide, by decide,
    C7_frame_roundtrip [104, 105] [] 5 (by decide) (by decide) (by decide)⟩

/-- C6: the claim says the router strips exactly the configured prefix,
whatever its length. The code strips `content[1:]` — exactly one
character: with the two-character prefix `!!` and message
`!!greet world`, the code produces command `!greet` (the prefix's second
character stays glued on), while stripping the whole prefix as the
claim states would produce command `greet`. -/
theorem C6_prefix_strip_counterexample :
    parse_service_command "!!" "!!greet world" = some ("!greet", ["world"])
    ∧ parse_service_command_spec "!!" "!!greet world" = some ("greet", ["world"])
    ∧ parse_service_command "!!" "!!greet world"
      ≠ parse_service_command_spec "!!" "!!greet world" := by
  refine ⟨by decide, by decide, by decide⟩

/-- C6 (amended): the router strips exactly ONE leading character after
the prefix test, so it strips exactly the prefix precisely when the
configured prefix has length 1; in that case it behaves as claimed —
tokenize the remainder on whitespace, first token the command, rest the
arguments — and a message whose trimmed text does not begin with the
prefix is ignored by this consumer. -/
theorem C6_prefix_strip_amended (pfx rawContent : String)
    (h1 : pfx.length = 1) :
    parse_service_command pfx rawContent
      = parse_service_command_spec pfx rawContent
    ∧ (pyStartsWith (pyStrip rawContent) pfx = false →
        parse_service_command pfx rawContent = none) := by
  constructor
  · unfold parse_service_command parse_service_command_spec
    rw [h1]
  · intro hother
    simp [parse_service_command, hother]

/-- C6 witness: with the one-character prefix `!` and message
`!greet world`, the code parser and the claimed parser agree. -/
theorem C6_prefix_strip_amended_witness :
    ("!" : String).length = 1
    ∧ (parse_service_command "!" "!greet world"
        = parse_service_command_spec "!" "!greet world"
      ∧ (pyStartsWith (pyStrip "!greet world") "!" = false →
          parse_service_command "!" "!greet world" = none)) :=
  ⟨by decide, C6_prefix_strip_amended "!" "!greet world" (by decide)⟩

/-- C8: the claim says every launched child — scripts and system
diagnostic commands alike — receives injected variables `MESSAGE_ID`,
`AUTHOR`, `CHANNEL_ID`, `GUILD_ID`, `MESSAGE_CONTENT`, `ARGS` and the
configured working directory. In the code, `_execute_system_command`
passes neither `env` nor `cwd` (the child inherits both), and even the
script path names the variables with a `DISCORD_` prefix: at the
concrete spawn of `ls -la` the overlay is empty and the cwd is
inherited, and the script-spawn overlay for a concrete message binds
`DISCORD_MESSAGE_ID` (not `MESSAGE_ID`). -/
theorem C8_env_injection_counterexample :
    (execute_system_command_spawn "ls" ["-la"]).envOverlay = []
    ∧ (execute_system_command_spawn "ls" ["-la"]).cwd = none
    ∧ keysOf (execute_script_spawn "./scripts/greet" "."
        { id := 42, author := "alice", channelId := 7, guildId := some 9,
          content := "!greet world" } ["world"]).envOverlay
      = ["DISCORD_MESSAGE_ID", "DISCORD_AUTHOR", "DISCORD_CHANNEL_ID",
         "DISCORD_GUILD_ID", "DISCORD_MESSAGE_CONTENT", "DISCORD_ARGS"]
    ∧ "MESSAGE_ID" ∉ keysOf (execute_script_spawn "./scripts/greet" "."
        { id := 42, author := "alice", channelId := 7, guildId := some 9,
          content := "!greet world" } ["world"]).envOverlay := by
  refine ⟨rfl, rfl, rfl, by decide⟩

/-- C8 (amended): only script children receive the injected environment,
under `DISCORD_`-prefixed names — `DISCORD_MESSAGE_ID`,
`DISCORD_AUTHOR`, `DISCORD_CHANNEL_ID`, `DISCORD_GUILD_ID`,
`DISCORD_MESSAGE_CONTENT`, and `DISCORD_ARGS` bound to the
whitespace-joined argument list — and run in the configured working
directory; system diagnostic commands are spawned with no environment
overlay and no working-directory argument, inheriting both from the
parent process. -/
theorem C8_env_injection_amended (msg : Message) (args : List String)
    (scriptPath workingDir cmd : String) :
    (execute_script_spawn scriptPath workingDir msg args).envOverlay.lookup
        "DISCORD_MESSAGE_ID" = some (toString msg.id)
    ∧ (execute_script_spawn scriptPath workingDir msg args).envOverlay.lookup
        "DISCORD_AUTHOR" = some msg.author
    ∧ (execute_script_spawn scriptPath workingDir msg args).envOverlay.lookup
        "DISCORD_CHANNEL_ID" = some (toString msg.channelId)
    ∧ (execute_script_spawn scriptPath workingDir msg args).envOverlay.lookup
        "DISCORD_GUILD_ID"
      = some (match msg.guildId with | some g => toString g | none => "")
    ∧ (execute_script_spawn scriptPath workingDir msg args).envOverlay.lookup
        "DISCORD_MESSAGE_CONTENT" = some msg.content
    ∧ (execute_script_spawn scriptPath workingDir msg args).envOverlay.lookup
        "DISCORD_ARGS" = some (String.intercalate " " args)
    ∧ (execute_script_spawn scriptPath workingDir msg args).cwd = some workingDir
    ∧ (execute_script_spawn scriptPath workingDir msg args).program = scriptPath
    ∧ (execute_system_command_spawn cmd args).envOverlay = []
    ∧ (execute_system_command_spawn cmd args).cwd = none :=
  ⟨rfl, rfl, rfl, rfl, rfl, rfl, rfl, rfl, rfl, rfl⟩

/-- C9: a payload that is not valid JSON draws the
`Invalid JSON message` error reply, a JSON object with an unrecognized
command tag draws a structured error naming that tag, and in both cases
the client loop frames the reply and continues with the next frame on
the same connection rather than dropping it. -/
theorem C9_error_replies_keep_connection
    (connected running sendResult : Bool) (fetch : Json → List ChannelMsg)
    (tag : String) (h1 : tag ≠ "send") (h2 : tag ≠ "status")
    (h3 : tag ≠ "get_messages")
    (proc : List Nat → List Nat) (p rest : List Nat)
    (hp : p.length < 2 ^ 32) (hr : (proc p).length < 2 ^ 32) :
    process_socket_message connected running sendResult fetch (.error ())
      = dumpJson (.obj [("error", .str "Invalid JSON message")])
    ∧ process_socket_message connected running sendResult fetch
        (.ok (.obj [("command", .str tag)]))
      = dumpJson (.obj [("error", .str ("Unknown command: " ++ tag))])
    ∧ handleClientLoop proc (toBytesBE4 p.length ++ p ++ rest)
      = (toBytesBE4 (proc p).length ++ proc p) :: handleClientLoop proc rest := by
  refine ⟨rfl, ?_, ?_⟩
  · have hget : jsonGet [("command", Json.str tag)] "command"
        = some (.str tag) := rfl
    simp only [process_socket_message, hget]
    simp [h1, h2, h3]
  · have henc : encodeFrame (proc p) = some (toBytesBE4 (proc p).length ++ proc p) := by
      unfold encodeFrame
      rw [if_pos hr]
    exact handleClientLoop_step proc _ p rest _ (decodeFrame_encoded p rest hp) henc

/-- C9 witness: the unknown tag `frobnicate` draws exactly the reply
`{"error": "Unknown command: frobnicate"}` (shown both through the
theorem and as the literal reply string), and an echoing client loop on
a one-frame stream replies and continues. -/
theorem C9_error_replies_keep_connection_witness :
    ("frobnicate" : String) ≠ "send"
    ∧ ("frobnicate" : String) ≠ "status"
    ∧ ("frobnicate" : String) ≠ "get_messages"
    ∧ ([104] : List Nat).length < 2 ^ 32
    ∧ (process_socket_message true true true (fun _ => []) (.error ())
        = dumpJson (.obj [("error", .str "Invalid JSON message")])
      ∧ process_socket_message true true true (fun _ => [])
          (.ok (.obj [("command", .str "frobnicate")]))
        = dumpJson (.obj [("error", .str ("Unknown command: " ++ "frobnicate"))])
      ∧ handleClientLoop (fun bs => bs) (toBytesBE4 ([104] : List Nat).length ++ [104] ++ [])
        = (toBytesBE4 ((fun bs : List Nat => bs) [104]).length ++ (fun bs : List Nat => bs) [104])
            :: handleClientLoop (fun bs => bs) [])
    ∧ process_socket_message true true true (fun _ => [])
        (.ok (.obj [("command", .str "frobnicate")]))
      = "\x7b\"error\": \"Unknown command: frobnicate\"\x7d" :=
  ⟨by decide, by decide, by decide, by decide,
    C9_error_replies_keep_connection true true true (fun _ => []) "frobnicate"
      (by decide) (by decide) (by decide) (fun bs => bs) [104] []
      (by decide) (by decide),
    by decide⟩

/-- C10: the claim says messages authored by the bot itself are dropped
before fan-out, and so is — whenever a channel id is configured — every
message on a different channel. The channel guard is a Python truthiness
test: with the configured channel id 0 (which is falsy), a message on
channel 5 from another author IS dispatched to the registered consumer,
so a configured-but-zero channel id does not filter at all. -/
theorem C10_zero_channel_counterexample :
    on_message "bot#1234" (some 0)
      [("stdout-writer", fun _ => HandlerOutcome.ok)]
      { id := 1, author := "alice", channelId := 5, guildId := none,
        content := "hi" }
      = [("stdout-writer", HandlerOutcome.ok)]
    ∧ on_message "bot#1234" (some 0)
        [("stdout-writer", fun _ => HandlerOutcome.ok)]
        { id := 1, author := "alice", channelId := 5, guildId := none,
          content := "hi" }
      ≠ [] := by
  refine ⟨by decide, by decide⟩

/-- C10 (amended): a message authored by the bot itself reaches no
registered consumer, and whenever a NONZERO channel id is configured a
message on a different channel reaches no registered consumer either;
a configured channel id of 0 is falsy in Python and disables the
channel filter. -/
theorem C10_dispatch_guards (botUser : String) (channelId : Option Nat)
    (handlers : List Handler) (msg : Message) :
    (msg.author = botUser →
      on_message botUser channelId handlers msg = [])
    ∧ (∀ c, channelId = some c → c ≠ 0 → msg.channelId ≠ c →
        on_message botUser channelId handlers msg = []) := by
  constructor
  · intro h
    unfold on_message
    rw [if_pos h]
  · intro c hc h0 hne
    subst hc
    unfold on_message
    by_cases ha : msg.author = botUser
    · rw [if_pos ha]
    · rw [if_neg ha]
      simp only [if_pos (And.intro h0 hne)]

/-- C10 witness: a message authored by the bot reaches no consumer, and
with configured channel 7 a message on channel 5 reaches no consumer. -/
theorem C10_dispatch_guards_witness :
    (Message.mk 1 "bot#1234" 5 none "hi").author = "bot#1234"
    ∧ on_message "bot#1234" (some 7) [("h1", fun _ => HandlerOutcome.ok)]
        (Message.mk 1 "bot#1234" 5 none "hi") = []
    ∧ (some 7 : Option Nat) = some 7 ∧ (7 : Nat) ≠ 0
    ∧ (Message.mk 2 "alice" 5 none "hi").channelId ≠ 7
    ∧ on_message "bot#1234" (some 7) [("h1", fun _ => HandlerOutcome.ok)]
        (Message.mk 2 "alice" 5 none "hi") = [] :=
  ⟨rfl,
    (C10_dispatch_guards "bot#1234" (some 7) _ _).1 rfl,
    rfl, by decide, by decide,
    (C10_dispatch_guards "bot#1234" (some 7) _ _).2 7 rfl (by decide) (by decide)⟩

end DiscordBotCli
